import Mathlib

/-!
Verification of the cellular-automata cave generator (Rust crate
map_generator, files src/lib.rs and src/cave.rs) against its
natural-language specification.

The data model and all operations below are a shallow embedding of the
Rust source.  Machine integers (usize, u8, u64, u128) are modelled as Nat
with explicit reduction modulo 2 ^ w exactly where the Rust code can wrap;
the neighbour counters (u8) never exceed 24 so no reduction is needed there.

The two Rust files share byte-identical implementations of
calculate_new_cell, empty_space, count_far_neighbours, count_neighbours and
next_cellular_automata (lib.rs lines 83-199, cave.rs lines 11-21 and 47-151),
so those are embedded once, in namespace Map.  The two divergent generators
are embedded separately: Lib.gen_cave (lib.rs, five growth passes, no
cleanup) and Cave.gen_cave (cave.rs, five growth passes then one cleanup
pass).
-/

/-- Cell grid from src/lib.rs: struct Map with a flat Vec of bool in
row-major order and the two dimensions.  The Rust Vec invariant
(length = width * height) is stated as a hypothesis where a proof needs it. -/
structure Map where
  map : List Bool
  height : Nat
  width : Nat
deriving DecidableEq

namespace Map

/-- Map::new from src/lib.rs lines 32-38: vec of false of size width * height. -/
def new (height width : Nat) : Map :=
  { map := List.replicate (width * height) false, height := height, width := width }

/-- Map::get from src/lib.rs lines 54-62: any out-of-bounds coordinate is a
wall (true); otherwise the stored value at the row-major index. -/
def get (m : Map) (y x : Nat) : Bool :=
  if m.height ≤ y ∨ m.width ≤ x then true
  else m.map.getD (y * m.width + x) false

/-- Map::set from src/lib.rs lines 77-81: write only when in bounds,
silently ignore out-of-bounds writes. -/
def set (m : Map) (y x : Nat) (v : Bool) : Map :=
  if y < m.height ∧ x < m.width then
    { m with map := m.map.set (y * m.width + x) v }
  else m

/-- count_neighbours from src/lib.rs lines 170-199 (identical in cave.rs):
the number of wall cells among the 8 Moore neighbours, the guards on the
left of each disjunction standing for the unsigned-underflow cases that the
Rust code short-circuits (those cells are out of bounds, hence walls). -/
def count_neighbours (m : Map) (y x : Nat) : Nat :=
  (if x = 0 ∨ y = 0 ∨ m.get (y - 1) (x - 1) then 1 else 0)
  + (if y = 0 ∨ m.get (y - 1) x then 1 else 0)
  + (if y = 0 ∨ m.get (y - 1) (x + 1) then 1 else 0)
  + (if m.get y (x + 1) then 1 else 0)
  + (if m.get (y + 1) (x + 1) then 1 else 0)
  + (if m.get (y + 1) x then 1 else 0)
  + (if x = 0 ∨ m.get (y + 1) (x - 1) then 1 else 0)
  + (if x = 0 ∨ m.get y (x - 1) then 1 else 0)

/-- count_far_neighbours from src/lib.rs lines 115-168 (identical in
cave.rs): the local count plus the 16 cells of the Chebyshev-distance-2
ring, in the source order, with the same underflow guards. -/
def count_far_neighbours (m : Map) (y x : Nat) : Nat :=
  m.count_neighbours y x
  + (if x ≤ 1 ∨ y ≤ 1 ∨ m.get (y - 2) (x - 2) then 1 else 0)
  + (if x = 0 ∨ y ≤ 1 ∨ m.get (y - 2) (x - 1) then 1 else 0)
  + (if y ≤ 1 ∨ m.get (y - 2) x then 1 else 0)
  + (if y ≤ 1 ∨ m.get (y - 2) (x + 1) then 1 else 0)
  + (if y ≤ 1 ∨ m.get (y - 2) (x + 2) then 1 else 0)
  + (if y = 0 ∨ m.get (y - 1) (x + 2) then 1 else 0)
  + (if m.get y (x + 2) then 1 else 0)
  + (if m.get (y + 1) (x + 2) then 1 else 0)
  + (if m.get (y + 2) (x + 2) then 1 else 0)
  + (if m.get (y + 2) (x + 1) then 1 else 0)
  + (if m.get (y + 2) x then 1 else 0)
  + (if x = 0 ∨ m.get (y + 2) (x - 1) then 1 else 0)
  + (if x ≤ 1 ∨ m.get (y + 2) (x - 2) then 1 else 0)
  + (if x ≤ 1 ∨ m.get (y + 1) (x - 2) then 1 else 0)
  + (if x ≤ 1 ∨ m.get y (x - 2) then 1 else 0)
  + (if x ≤ 1 ∨ y = 0 ∨ m.get (y - 1) (x - 2) then 1 else 0)

/-- empty_space from src/lib.rs lines 108-113 (identical in cave.rs). -/
def empty_space (m : Map) (y x : Nat) : Bool :=
  if m.count_far_neighbours y x = 0 then true else false

/-- calculate_new_cell from src/lib.rs lines 95-106 (identical in cave.rs,
lines 47-58); MIN_NEW_WALL = 5 and MIN_KEEP_WALL = 4 are inlined. -/
def calculate_new_cell (m : Map) (y x : Nat) : Bool :=
  let num_neighbours := m.count_neighbours y x
  if 5 ≤ num_neighbours ∨ m.empty_space y x then true
  else if num_neighbours = 4 ∧ m.get y x then true
  else false

/-- cleanup_cell from src/cave.rs lines 35-45: like calculate_new_cell but
without the empty-space rule. -/
def cleanup_cell (m : Map) (y x : Nat) : Bool :=
  let num_neighbours := m.count_neighbours y x
  if 5 ≤ num_neighbours then true
  else if num_neighbours = 4 ∧ m.get y x then true
  else false

/-- next_cellular_automata from src/lib.rs lines 83-93 (identical in
cave.rs, lines 11-21): allocate a fresh grid and set every in-bounds cell
from the previous snapshot, rows outer, columns inner. -/
def next_cellular_automata (m : Map) : Map :=
  (List.range m.height).foldl
    (fun new_map i =>
      (List.range m.width).foldl
        (fun new_map j => new_map.set i j (m.calculate_new_cell i j)) new_map)
    (Map.new m.height m.width)

/-- cleanup_cellular_automata from src/cave.rs lines 23-33: same loop shape
with the cleanup rule. -/
def cleanup_cellular_automata (m : Map) : Map :=
  (List.range m.height).foldl
    (fun new_map i =>
      (List.range m.width).foldl
        (fun new_map j => new_map.set i j (m.cleanup_cell i j)) new_map)
    (Map.new m.height m.width)

end Map

/-! The random source.  rand_pcg::Pcg64 is Lcg128Xsl64: a 128-bit LCG with
the XSL-RR output permutation.  Modelled faithfully from rand_pcg 0.3 /
rand_core 0.6 / rand 0.8 as pinned by the crate; the embedding below
reproduces bit-for-bit the reference outputs hard-coded in the tests of
both src/lib.rs and src/cave.rs for seed string 0 at 10 x 10. -/

/-- Right rotation of a 64-bit value x by r (r below 64). -/
def rotr64 (x r : Nat) : Nat :=
  ((x >>> r) ||| (x <<< (64 - r))) % 2 ^ 64

/-- Right rotation of a 32-bit value x by r (r below 32). -/
def rotr32 (x r : Nat) : Nat :=
  ((x >>> r) ||| (x <<< (32 - r))) % 2 ^ 32

/-- The 128-bit LCG multiplier of PCG (rand_pcg). -/
def PCG64_MULT : Nat := 0x2360ed051fc65da44385df649fccf645

/-- State of rand_pcg::Pcg64: 128-bit state and odd 128-bit increment. -/
structure Pcg64 where
  state : Nat
  increment : Nat
deriving DecidableEq

/-- One LCG step: state := state * MULT + increment mod 2 ^ 128. -/
def pcg64_step (g : Pcg64) : Pcg64 :=
  { state := (g.state * PCG64_MULT + g.increment) % 2 ^ 128,
    increment := g.increment }

/-- XSL-RR output permutation: rotate the xor of the two state halves right
by the top 6 state bits. -/
def pcg64_output (state : Nat) : Nat :=
  rotr64 ((state >>> 64) ^^^ (state % 2 ^ 64)) (state >>> 122)

/-- Pcg64::next_u64: advance the LCG, then apply the output permutation to
the new state. -/
def Pcg64.next_u64 (g : Pcg64) : Nat × Pcg64 :=
  let g' := pcg64_step g
  (pcg64_output g'.state, g')

/-- The PCG32 (XSH-RR 64/32) output used by rand_core SeedableRng
seed_from_u64 to expand a u64 seed into seed bytes. -/
def pcg32_word (state : Nat) : Nat :=
  rotr32 ((((state >>> 18) ^^^ state) >>> 27) % 2 ^ 32) (state >>> 59)

/-- SeedableRng::seed_from_u64 for Pcg64: expand the seed into eight u32
words with a PCG32 stream (advancing before each output), assemble the
first four little-endian into the 128-bit seed state and the last four into
the 128-bit stream value, force the increment odd, then initialise as
rand_pcg from_state_incr does: add the increment into the state and take
one LCG step. -/
def Pcg64.seed_from_u64 (seed : Nat) : Pcg64 :=
  let MUL := 6364136223846793005
  let INC := 11634580027462260723
  let s1 := (seed % 2 ^ 64 * MUL + INC) % 2 ^ 64
  let s2 := (s1 * MUL + INC) % 2 ^ 64
  let s3 := (s2 * MUL + INC) % 2 ^ 64
  let s4 := (s3 * MUL + INC) % 2 ^ 64
  let s5 := (s4 * MUL + INC) % 2 ^ 64
  let s6 := (s5 * MUL + INC) % 2 ^ 64
  let s7 := (s6 * MUL + INC) % 2 ^ 64
  let s8 := (s7 * MUL + INC) % 2 ^ 64
  let state := pcg32_word s1 + pcg32_word s2 * 2 ^ 32
    + pcg32_word s3 * 2 ^ 64 + pcg32_word s4 * 2 ^ 96
  let incr := (pcg32_word s5 + pcg32_word s6 * 2 ^ 32
    + pcg32_word s7 * 2 ^ 64 + pcg32_word s8 * 2 ^ 96) ||| 1
  pcg64_step { state := (state + incr) % 2 ^ 128, increment := incr }

/-- The fixed-point threshold of rand 0.8 Bernoulli for p = 0.45: the u64
value (0.45f64 * 2f64 ^ 64) as u64.  gen_bool(0.45) draws one u64 and
compares it against this constant. -/
def INIT_P_INT : Nat := 8301034833169298432

/-- rng.gen_bool(INIT_PROBABILITY) as called by fill_random: one u64 draw,
true iff it is below the Bernoulli threshold for 0.45. -/
def Pcg64.gen_bool_init (g : Pcg64) : Bool × Pcg64 :=
  let (v, g') := g.next_u64
  (decide (v < INIT_P_INT), g')

namespace Map

/-- fill_random from src/lib.rs lines 201-207: one Bernoulli(0.45) draw per
cell, rows outer, columns inner, threading the generator state. -/
def fill_random (m : Map) (g : Pcg64) : Map × Pcg64 :=
  (List.range m.height).foldl
    (fun acc i =>
      (List.range m.width).foldl
        (fun acc j =>
          let (v, g') := Pcg64.gen_bool_init acc.2
          (acc.1.set i j v, g'))
        acc)
    (m, g)

end Map

/-- str::trim as used by both gen_cave_seed functions: strip whitespace
from both ends of the character sequence. -/
def trim_chars (cs : List Char) : List Char :=
  ((cs.dropWhile Char.isWhitespace).reverse.dropWhile Char.isWhitespace).reverse

/-- str::parse::<u64> as used by both gen_cave_seed functions: an optional
leading plus sign, then one or more ASCII digits, value within u64 range;
anything else fails over to the hasher. -/
def parse_u64 (cs0 : List Char) : Option Nat :=
  let cs := match cs0 with
    | '+' :: rest => rest
    | _ => cs0
  if cs ≠ [] ∧ cs.all (fun c => c.isDigit) then
    let v := cs.foldl (fun a c => a * 10 + (c.toNat - 48)) 0
    if v < 2 ^ 64 then some v else none
  else none

/-- Seed resolution shared by both gen_cave_seed functions: parse the
trimmed string as u64, else hash the original string with
std DefaultHasher.  The hasher (SipHash 1-3, std-internal and version
dependent) is external to the repository and passed here as an explicit
deterministic function, as the spec treats it (an injected capability). -/
def resolve_seed (hash : String → Nat) (seed : String) : Nat :=
  match parse_u64 (trim_chars seed.data) with
  | some v => v
  | none => hash seed % 2 ^ 64

namespace Lib

/-- gen_cave from src/lib.rs lines 249-257: new grid, random fill, then
five growth passes; no cleanup pass. -/
def gen_cave (y x : Nat) (g : Pcg64) : Map :=
  let m := Map.new y x
  let m := (m.fill_random g).1
  (List.range 5).foldl (fun m _ => m.next_cellular_automata) m

/-- gen_cave_seed from src/lib.rs lines 220-233. -/
def gen_cave_seed (hash : String → Nat) (y x : Nat) (seed : String) : Map :=
  Lib.gen_cave y x (Pcg64.seed_from_u64 (resolve_seed hash seed))

end Lib

namespace Cave

/-- gen_cave from src/cave.rs lines 193-203: new grid, random fill, five
growth passes, then one cleanup pass. -/
def gen_cave (y x : Nat) (g : Pcg64) : Map :=
  let m := Map.new y x
  let m := (m.fill_random g).1
  let m := (List.range 5).foldl (fun m _ => m.next_cellular_automata) m
  m.cleanup_cellular_automata

/-- gen_cave_seed from src/cave.rs lines 164-177. -/
def gen_cave_seed (hash : String → Nat) (y x : Nat) (seed : String) : Map :=
  Cave.gen_cave y x (Pcg64.seed_from_u64 (resolve_seed hash seed))

end Cave

/-! Specification-side definitions, written from the words of the spec and
of the claims, to be compared with the source embedding above. -/

/-- Spec-side view of the out-of-bounds-is-wall rule over signed
coordinates: any coordinate outside the grid on either side, negative
included, reads as wall. -/
def get_ext (m : Map) (y x : Int) : Bool :=
  if y < 0 ∨ x < 0 then true else m.get y.toNat x.toNat

/-- The 16 offsets of the Chebyshev-distance-2 ring named by the spec:
(pm 2, pm 2), (pm 2, pm 1), (pm 1, pm 2), (pm 2, 0) and (0, pm 2),
listed here in the order the source visits them. -/
def ring_offsets : List (Int × Int) :=
  [(-2, -2), (-2, -1), (-2, 0), (-2, 1), (-2, 2), (-1, 2), (0, 2), (1, 2),
   (2, 2), (2, 1), (2, 0), (2, -1), (2, -2), (1, -2), (0, -2), (-1, -2)]

/-- Spec-side count of wall cells among exactly the 16 ring offsets, with
out-of-bounds counting as wall. -/
def ring_wall_count (m : Map) (y x : Nat) : Nat :=
  List.countP (fun d => get_ext m ((y : Int) + d.1) ((x : Int) + d.2)) ring_offsets

/-- Spec-side composition of the growth-and-cleanup generator (spec
section 4.7): allocate, random-fill, iterate the growth pass five times,
then apply the cleanup pass once. -/
def gen_cave_spec (y x : Nat) (g : Pcg64) : Map :=
  Map.cleanup_cellular_automata
    (Map.next_cellular_automata^[5] ((Map.new y x).fill_random g).1)

/-! Concrete grids of the seed-0 pipeline at 10 x 10, one per stage, used
to evaluate the two generators bottom-up (the growMap5 and cleanMap grids
are exactly the expected maps hard-coded in the generate_map tests of
src/lib.rs and src/cave.rs). -/

/-- The 10 x 10 grid right after fill_random under seed 0. -/
def fillMap0 : Map :=
  ⟨[true, true, false, true, false, true, true, false, false, false, true, true, false, true, false, true, true, false, true, true, true, false, false, true, true, false, true, true, false, false, false, true, false, false, false, false, true, false, false, false, true, false, false, true, false, false, true, false, false, true, true, true, false, true, false, false, true, false, true, true, true, false, false, false, false, true, false, true, true, false, false, false, true, false, false, true, true, false, true, false, true, false, false, false, false, true, true, true, true, false, true, true, false, true, true, true, false, true, false, true], 10, 10⟩

/-- The grid after one growth pass. -/
def growMap1 : Map :=
  ⟨[true, true, true, true, true, true, true, true, true, true, true, true, true, false, true, true, true, true, false, true, true, false, false, false, false, true, true, true, false, true, true, false, false, false, false, false, false, false, false, false, true, false, false, false, false, false, false, false, false, true, true, false, false, false, false, false, false, true, true, true, true, false, false, false, false, false, true, true, true, true, true, false, false, false, false, true, true, true, true, true, true, false, false, false, true, true, true, true, true, true, true, true, true, true, true, true, true, true, true, true], 10, 10⟩

/-- The grid after two growth passes. -/
def growMap2 : Map :=
  ⟨[true, true, true, true, true, true, true, true, true, true, true, true, true, true, true, true, true, true, true, true, true, true, false, false, false, true, true, false, false, true, true, false, false, false, false, false, false, false, false, true, true, false, false, false, false, false, false, false, false, true, true, false, false, false, false, false, false, true, true, true, true, false, false, false, false, false, true, true, true, true, true, false, false, false, false, true, true, true, true, true, true, true, false, false, true, true, true, true, true, true, true, true, true, true, true, true, true, true, true, true], 10, 10⟩

/-- The grid after three growth passes. -/
def growMap3 : Map :=
  ⟨[true, true, true, true, true, true, true, true, true, true, true, true, true, true, true, true, true, true, true, true, true, true, false, false, false, true, true, false, true, true, true, false, false, false, false, false, false, false, false, true, true, false, false, false, false, false, false, false, true, true, true, false, false, false, false, false, false, true, true, true, true, false, false, false, false, false, true, true, true, true, true, false, false, false, false, true, true, true, true, true, true, true, false, false, true, true, true, true, true, true, true, true, true, true, true, true, true, true, true, true], 10, 10⟩

/-- The grid after four growth passes. -/
def growMap4 : Map :=
  ⟨[true, true, true, true, true, true, true, true, true, true, true, true, true, true, true, true, true, true, true, true, true, true, false, false, false, true, true, true, true, true, true, false, false, false, false, false, false, false, true, true, true, false, false, false, false, false, false, false, true, true, true, false, false, false, false, false, false, true, true, true, true, false, false, false, false, false, true, true, true, true, true, false, false, false, false, true, true, true, true, true, true, true, false, false, true, true, true, true, true, true, true, true, true, true, true, true, true, true, true, true], 10, 10⟩

/-- The grid after five growth passes: the expected map of the
generate_map test of src/lib.rs. -/
def growMap5 : Map :=
  ⟨[true, true, true, true, true, true, true, true, true, true, true, true, true, true, true, true, true, true, true, true, true, true, false, false, false, true, true, true, true, true, true, false, false, false, false, false, false, true, true, true, true, false, false, false, false, false, false, false, true, true, true, false, false, false, false, false, false, true, true, true, true, false, false, false, false, false, true, true, true, true, true, false, false, false, false, true, true, true, true, true, true, true, false, false, true, true, true, true, true, true, true, true, true, true, true, true, true, true, true, true], 10, 10⟩

/-- The grid after the cleanup pass: the expected map of the generate_map
test of src/cave.rs. -/
def cleanMap : Map :=
  ⟨[true, true, true, true, true, true, true, true, true, true, true, true, true, true, true, true, true, true, true, true, true, true, false, false, false, true, true, true, true, true, true, false, false, false, false, false, false, true, true, true, true, false, false, false, false, false, false, true, true, true, true, false, false, false, false, false, false, true, true, true, true, false, false, false, false, false, true, true, true, true, true, false, false, false, false, true, true, true, true, true, true, true, false, false, true, true, true, true, true, true, true, true, true, true, true, true, true, true, true, true], 10, 10⟩

/-- An all-wall 2 x 2 grid (for the fixed-point property of the passes). -/
def allWall2 : Map := ⟨[true, true, true, true], 2, 2⟩

/-- An all-wall 3 x 3 grid (a fixed point of the cleanup pass). -/
def allWall3 : Map := ⟨List.replicate 9 true, 3, 3⟩

/-! Helper lemmas about the grid. -/

namespace Map

@[simp]
theorem set_height (m : Map) (y x : Nat) (v : Bool) : (m.set y x v).height = m.height := by
  unfold Map.set; split <;> rfl

@[simp]
theorem set_width (m : Map) (y x : Nat) (v : Bool) : (m.set y x v).width = m.width := by
  unfold Map.set; split <;> rfl

@[simp]
theorem set_map_length (m : Map) (y x : Nat) (v : Bool) :
    (m.set y x v).map.length = m.map.length := by
  unfold Map.set; split <;> simp

theorem new_height (h w : Nat) : (Map.new h w).height = h := rfl

theorem new_width (h w : Nat) : (Map.new h w).width = w := rfl

theorem new_length (h w : Nat) : (Map.new h w).map.length = w * h := by
  simp [Map.new]

theorem get_oob (m : Map) (y x : Nat) (h : ¬(y < m.height ∧ x < m.width)) :
    m.get y x = true := by
  unfold Map.get
  rw [if_pos (by omega)]

theorem new_get_oob (h w y x : Nat) (hyx : ¬(y < h ∧ x < w)) :
    (Map.new h w).get y x = true :=
  get_oob _ _ _ hyx

theorem row_index_lt {y x h w : Nat} (hy : y < h) (hx : x < w) :
    y * w + x < w * h := by
  calc y * w + x < y * w + w := by omega
    _ = (y + 1) * w := by ring
    _ ≤ h * w := Nat.mul_le_mul_right _ (by omega)
    _ = w * h := Nat.mul_comm h w

theorem row_index_div {y x w : Nat} (hx : x < w) : (y * w + x) / w = y := by
  rw [Nat.add_comm, Nat.mul_comm, Nat.add_mul_div_left _ _ (by omega : 0 < w),
    Nat.div_eq_of_lt hx, Nat.zero_add]

theorem row_index_mod {y x w : Nat} (hx : x < w) : (y * w + x) % w = x := by
  rw [Nat.add_comm, Nat.mul_comm, Nat.add_mul_mod_self_left, Nat.mod_eq_of_lt hx]

theorem row_index_inj {y x y' x' w : Nat} (hx : x < w) (hx' : x' < w)
    (h : y * w + x = y' * w + x') : y = y' ∧ x = x' := by
  constructor
  · rw [← row_index_div (y := y) hx, h, row_index_div hx']
  · rw [← row_index_mod (y := y) hx, h, row_index_mod (y := y') hx']

theorem get_mk (l : List Bool) (h w y x : Nat) :
    (Map.mk l h w).get y x
      = if h ≤ y ∨ w ≤ x then true else l.getD (y * w + x) false := rfl

theorem set_of_lt (m : Map) (y x : Nat) (v : Bool)
    (hb : y < m.height ∧ x < m.width) :
    m.set y x v = Map.mk (m.map.set (y * m.width + x) v) m.height m.width := by
  unfold Map.set
  rw [if_pos hb]

theorem set_of_not_lt (m : Map) (y x : Nat) (v : Bool)
    (hb : ¬(y < m.height ∧ x < m.width)) : m.set y x v = m := by
  unfold Map.set
  rw [if_neg hb]

theorem get_set (m : Map) (hwf : m.map.length = m.width * m.height)
    (y x : Nat) (v : Bool) (y' x' : Nat) :
    (m.set y x v).get y' x'
      = if y' = y ∧ x' = x ∧ y < m.height ∧ x < m.width then v
        else m.get y' x' := by
  by_cases hb : y < m.height ∧ x < m.width
  · rw [set_of_lt m y x v hb, get_mk]
    by_cases hoob : m.height ≤ y' ∨ m.width ≤ x'
    · rw [if_pos hoob, if_neg (by omega), get_oob _ _ _ (by omega)]
    · rw [if_neg hoob]
      push_neg at hoob
      rw [List.getD_eq_getElem?_getD, List.getElem?_set]
      by_cases heq : y' = y ∧ x' = x
      · obtain ⟨h1, h2⟩ := heq
        subst h1; subst h2
        rw [if_pos rfl, if_pos (by rw [hwf]; exact row_index_lt hb.1 hb.2),
          if_pos ⟨rfl, rfl, hb⟩]
        rfl
      · have hne : ¬(y' * m.width + x' = y * m.width + x) := by
          intro hEq
          exact heq (row_index_inj hoob.2 hb.2 hEq)
        rw [if_neg (by omega), if_neg (fun hc => heq ⟨hc.1, hc.2.1⟩)]
        unfold Map.get
        rw [if_neg (by omega), List.getD_eq_getElem?_getD]
  · rw [set_of_not_lt m y x v hb, if_neg (by tauto)]

theorem row_fold_height (m : Map) (i : Nat) (f : Nat → Bool) (cols : List Nat) :
    (cols.foldl (fun acc j => acc.set i j (f j)) m).height = m.height := by
  induction cols generalizing m with
  | nil => rfl
  | cons c rest ih => rw [List.foldl_cons, ih]; simp

theorem row_fold_width (m : Map) (i : Nat) (f : Nat → Bool) (cols : List Nat) :
    (cols.foldl (fun acc j => acc.set i j (f j)) m).width = m.width := by
  induction cols generalizing m with
  | nil => rfl
  | cons c rest ih => rw [List.foldl_cons, ih]; simp

theorem row_fold_length (m : Map) (i : Nat) (f : Nat → Bool) (cols : List Nat) :
    (cols.foldl (fun acc j => acc.set i j (f j)) m).map.length = m.map.length := by
  induction cols generalizing m with
  | nil => rfl
  | cons c rest ih => rw [List.foldl_cons, ih]; simp

theorem row_fold_get (m : Map) (hwf : m.map.length = m.width * m.height)
    (i : Nat) (f : Nat → Bool) (cols : List Nat) (y x : Nat) :
    ((cols.foldl (fun acc j => acc.set i j (f j)) m).get y x)
      = if y = i ∧ x ∈ cols ∧ i < m.height ∧ x < m.width then f x
        else m.get y x := by
  induction cols generalizing m with
  | nil => simp
  | cons c rest ih =>
    rw [List.foldl_cons]
    rw [ih (m.set i c (f c)) (by simp [hwf])]
    simp only [set_height, set_width]
    rw [get_set m hwf]
    by_cases h1 : y = i ∧ x ∈ rest ∧ i < m.height ∧ x < m.width
    · rw [if_pos h1, if_pos ⟨h1.1, List.mem_cons_of_mem _ h1.2.1, h1.2.2⟩]
    · rw [if_neg h1]
      by_cases h2 : y = i ∧ x = c ∧ i < m.height ∧ c < m.width
      · rw [if_pos h2, if_pos ⟨h2.1, by rw [h2.2.1]; exact List.mem_cons_self _ _,
          h2.2.2.1, h2.2.1 ▸ h2.2.2.2⟩, h2.2.1]
      · rw [if_neg h2, if_neg (by
          intro ⟨ha, hb, hc, hd⟩
          rcases List.mem_cons.mp hb with hb | hb
          · exact h2 ⟨ha, hb, hc, hb ▸ hd⟩
          · exact h1 ⟨ha, hb, hc, hd⟩)]

theorem grid_fold_get (m : Map) (hwf : m.map.length = m.width * m.height)
    (f : Nat → Nat → Bool) (rows cols : List Nat) (y x : Nat) :
    ((rows.foldl
        (fun acc i => cols.foldl (fun acc2 j => acc2.set i j (f i j)) acc) m).get y x)
      = if y ∈ rows ∧ x ∈ cols ∧ y < m.height ∧ x < m.width then f y x
        else m.get y x := by
  induction rows generalizing m with
  | nil => simp
  | cons r rest ih =>
    rw [List.foldl_cons]
    have hwf2 : (cols.foldl (fun acc2 j => acc2.set r j (f r j)) m).map.length
        = (cols.foldl (fun acc2 j => acc2.set r j (f r j)) m).width
          * (cols.foldl (fun acc2 j => acc2.set r j (f r j)) m).height := by
      rw [row_fold_length, row_fold_width, row_fold_height, hwf]
    rw [ih _ hwf2]
    rw [row_fold_height, row_fold_width]
    rw [row_fold_get m hwf]
    by_cases h1 : y ∈ rest ∧ x ∈ cols ∧ y < m.height ∧ x < m.width
    · rw [if_pos h1, if_pos ⟨List.mem_cons_of_mem _ h1.1, h1.2⟩]
    · rw [if_neg h1]
      by_cases h2 : y = r ∧ x ∈ cols ∧ r < m.height ∧ x < m.width
      · rw [if_pos h2, if_pos ⟨by rw [h2.1]; exact List.mem_cons_self _ _,
          h2.2.1, h2.1 ▸ h2.2.2.1, h2.2.2.2⟩, h2.1]
      · rw [if_neg h2, if_neg (by
          intro ⟨ha, hb, hc, hd⟩
          rcases List.mem_cons.mp ha with ha | ha
          · exact h2 ⟨ha, hb, ha ▸ hc, hd⟩
          · exact h1 ⟨ha, hb, hc, hd⟩)]

/-- The value of any cell of the grid a growth pass produces: the update
rule at in-bounds cells, wall outside. -/
theorem next_cellular_automata_get (m : Map) (y x : Nat) :
    m.next_cellular_automata.get y x
      = if y < m.height ∧ x < m.width then m.calculate_new_cell y x else true := by
  unfold next_cellular_automata
  rw [grid_fold_get _ (by rw [new_length, new_width, new_height])]
  rw [new_height, new_width]
  by_cases h : y < m.height ∧ x < m.width
  · rw [if_pos ⟨List.mem_range.mpr h.1, List.mem_range.mpr h.2, h⟩, if_pos h]
  · rw [if_neg (by
      intro ⟨_, _, hc, hd⟩
      exact h ⟨hc, hd⟩), if_neg h, new_get_oob _ _ _ _ h]

/-- The value of any cell of the grid a cleanup pass produces. -/
theorem cleanup_cellular_automata_get (m : Map) (y x : Nat) :
    m.cleanup_cellular_automata.get y x
      = if y < m.height ∧ x < m.width then m.cleanup_cell y x else true := by
  unfold cleanup_cellular_automata
  rw [grid_fold_get _ (by rw [new_length, new_width, new_height])]
  rw [new_height, new_width]
  by_cases h : y < m.height ∧ x < m.width
  · rw [if_pos ⟨List.mem_range.mpr h.1, List.mem_range.mpr h.2, h⟩, if_pos h]
  · rw [if_neg (by
      intro ⟨_, _, hc, hd⟩
      exact h ⟨hc, hd⟩), if_neg h, new_get_oob _ _ _ _ h]

end Map

/-- Bridge between one guarded wall test of count_far_neighbours (a
disjunction C of underflow guards and a get at truncated indices) and the
corresponding extended-coordinate wall test of the spec-side ring count. -/
theorem get_ext_eq_cond (m : Map) (a b : Nat) (Yc Xc : Int) (C : Prop)
    [Decidable C]
    (hC : C ↔ (Yc < 0 ∨ Xc < 0 ∨ m.get a b = true))
    (hay : ¬Yc < 0 → Yc.toNat = a) (hbx : ¬Xc < 0 → Xc.toNat = b) :
    (if get_ext m Yc Xc then (1 : Nat) else 0) = (if C then 1 else 0) := by
  rcases Decidable.em (Yc < 0 ∨ Xc < 0) with hneg | hpos
  · have he : get_ext m Yc Xc = true := by
      unfold get_ext
      rw [if_pos hneg]
    rw [he, if_pos (hC.mpr (by tauto))]
    rfl
  · have he : get_ext m Yc Xc = m.get a b := by
      unfold get_ext
      rw [if_neg hpos, hay (by tauto), hbx (by tauto)]
    rw [he]
    by_cases hget : m.get a b = true
    · rw [if_pos hget, if_pos (hC.mpr (Or.inr (Or.inr hget)))]
    · rw [if_neg hget, if_neg (fun hc => by
        rcases hC.mp hc with h | h | h
        · exact hpos (Or.inl h)
        · exact hpos (Or.inr h)
        · exact hget h)]

/-- The far-neighbour count is the local count plus the spec-side ring
count: a seam between the source's 16 guarded tests and the spec's 16
signed offsets. -/
theorem count_far_neighbours_eq_ring (m : Map) (y x : Nat) :
    m.count_far_neighbours y x
      = m.count_neighbours y x + ring_wall_count m y x := by
  have e01 := get_ext_eq_cond m (y - 2) (x - 2) ((y : Int) + -2) ((x : Int) + -2)
    (x ≤ 1 ∨ y ≤ 1 ∨ m.get (y - 2) (x - 2) = true)
    (by
      have k1 : x ≤ 1 ↔ (x : Int) + -2 < 0 := by omega
      have k2 : y ≤ 1 ↔ (y : Int) + -2 < 0 := by omega
      tauto)
    (by intro h; omega) (by intro h; omega)
  have e02 := get_ext_eq_cond m (y - 2) (x - 1) ((y : Int) + -2) ((x : Int) + -1)
    (x = 0 ∨ y ≤ 1 ∨ m.get (y - 2) (x - 1) = true)
    (by
      have k1 : x = 0 ↔ (x : Int) + -1 < 0 := by omega
      have k2 : y ≤ 1 ↔ (y : Int) + -2 < 0 := by omega
      tauto)
    (by intro h; omega) (by intro h; omega)
  have e03 := get_ext_eq_cond m (y - 2) x ((y : Int) + -2) ((x : Int) + 0)
    (y ≤ 1 ∨ m.get (y - 2) x = true)
    (by
      have k1 : ¬((x : Int) + 0 < 0) := by omega
      have k2 : y ≤ 1 ↔ (y : Int) + -2 < 0 := by omega
      tauto)
    (by intro h; omega) (by intro h; omega)
  have e04 := get_ext_eq_cond m (y - 2) (x + 1) ((y : Int) + -2) ((x : Int) + 1)
    (y ≤ 1 ∨ m.get (y - 2) (x + 1) = true)
    (by
      have k1 : ¬((x : Int) + 1 < 0) := by omega
      have k2 : y ≤ 1 ↔ (y : Int) + -2 < 0 := by omega
      tauto)
    (by intro h; omega) (by intro h; omega)
  have e05 := get_ext_eq_cond m (y - 2) (x + 2) ((y : Int) + -2) ((x : Int) + 2)
    (y ≤ 1 ∨ m.get (y - 2) (x + 2) = true)
    (by
      have k1 : ¬((x : Int) + 2 < 0) := by omega
      have k2 : y ≤ 1 ↔ (y : Int) + -2 < 0 := by omega
      tauto)
    (by intro h; omega) (by intro h; omega)
  have e06 := get_ext_eq_cond m (y - 1) (x + 2) ((y : Int) + -1) ((x : Int) + 2)
    (y = 0 ∨ m.get (y - 1) (x + 2) = true)
    (by
      have k1 : ¬((x : Int) + 2 < 0) := by omega
      have k2 : y = 0 ↔ (y : Int) + -1 < 0 := by omega
      tauto)
    (by intro h; omega) (by intro h; omega)
  have e07 := get_ext_eq_cond m y (x + 2) ((y : Int) + 0) ((x : Int) + 2)
    (m.get y (x + 2) = true)
    (by
      have k1 : ¬((x : Int) + 2 < 0) := by omega
      have k2 : ¬((y : Int) + 0 < 0) := by omega
      tauto)
    (by intro h; omega) (by intro h; omega)
  have e08 := get_ext_eq_cond m (y + 1) (x + 2) ((y : Int) + 1) ((x : Int) + 2)
    (m.get (y + 1) (x + 2) = true)
    (by
      have k1 : ¬((x : Int) + 2 < 0) := by omega
      have k2 : ¬((y : Int) + 1 < 0) := by omega
      tauto)
    (by intro h; omega) (by intro h; omega)
  have e09 := get_ext_eq_cond m (y + 2) (x + 2) ((y : Int) + 2) ((x : Int) + 2)
    (m.get (y + 2) (x + 2) = true)
    (by
      have k1 : ¬((x : Int) + 2 < 0) := by omega
      have k2 : ¬((y : Int) + 2 < 0) := by omega
      tauto)
    (by intro h; omega) (by intro h; omega)
  have e10 := get_ext_eq_cond m (y + 2) (x + 1) ((y : Int) + 2) ((x : Int) + 1)
    (m.get (y + 2) (x + 1) = true)
    (by
      have k1 : ¬((x : Int) + 1 < 0) := by omega
      have k2 : ¬((y : Int) + 2 < 0) := by omega
      tauto)
    (by intro h; omega) (by intro h; omega)
  have e11 := get_ext_eq_cond m (y + 2) x ((y : Int) + 2) ((x : Int) + 0)
    (m.get (y + 2) x = true)
    (by
      have k1 : ¬((x : Int) + 0 < 0) := by omega
      have k2 : ¬((y : Int) + 2 < 0) := by omega
      tauto)
    (by intro h; omega) (by intro h; omega)
  have e12 := get_ext_eq_cond m (y + 2) (x - 1) ((y : Int) + 2) ((x : Int) + -1)
    (x = 0 ∨ m.get (y + 2) (x - 1) = true)
    (by
      have k1 : x = 0 ↔ (x : Int) + -1 < 0 := by omega
      have k2 : ¬((y : Int) + 2 < 0) := by omega
      tauto)
    (by intro h; omega) (by intro h; omega)
  have e13 := get_ext_eq_cond m (y + 2) (x - 2) ((y : Int) + 2) ((x : Int) + -2)
    (x ≤ 1 ∨ m.get (y + 2) (x - 2) = true)
    (by
      have k1 : x ≤ 1 ↔ (x : Int) + -2 < 0 := by omega
      have k2 : ¬((y : Int) + 2 < 0) := by omega
      tauto)
    (by intro h; omega) (by intro h; omega)
  have e14 := get_ext_eq_cond m (y + 1) (x - 2) ((y : Int) + 1) ((x : Int) + -2)
    (x ≤ 1 ∨ m.get (y + 1) (x - 2) = true)
    (by
      have k1 : x ≤ 1 ↔ (x : Int) + -2 < 0 := by omega
      have k2 : ¬((y : Int) + 1 < 0) := by omega
      tauto)
    (by intro h; omega) (by intro h; omega)
  have e15 := get_ext_eq_cond m y (x - 2) ((y : Int) + 0) ((x : Int) + -2)
    (x ≤ 1 ∨ m.get y (x - 2) = true)
    (by
      have k1 : x ≤ 1 ↔ (x : Int) + -2 < 0 := by omega
      have k2 : ¬((y : Int) + 0 < 0) := by omega
      tauto)
    (by intro h; omega) (by intro h; omega)
  have e16 := get_ext_eq_cond m (y - 1) (x - 2) ((y : Int) + -1) ((x : Int) + -2)
    (x ≤ 1 ∨ y = 0 ∨ m.get (y - 1) (x - 2) = true)
    (by
      have k1 : x ≤ 1 ↔ (x : Int) + -2 < 0 := by omega
      have k2 : y = 0 ↔ (y : Int) + -1 < 0 := by omega
      tauto)
    (by intro h; omega) (by intro h; omega)
  unfold Map.count_far_neighbours ring_wall_count ring_offsets
  simp only [List.countP_cons, List.countP_nil]
  dsimp only
  omega

/-- The local neighbour count never exceeds eight. -/
theorem count_neighbours_le_eight (m : Map) (y x : Nat) :
    m.count_neighbours y x ≤ 8 := by
  unfold Map.count_neighbours
  split_ifs <;> omega

/-- The ring count never exceeds sixteen. -/
theorem ring_wall_count_le_sixteen (m : Map) (y x : Nat) :
    ring_wall_count m y x ≤ 16 :=
  List.countP_le_length _

/-! Bottom-up evaluation of the seed-0 pipeline at 10 x 10, one stage at a
time so that each intermediate grid is forced to a literal before the next
pass reads it. -/

set_option maxRecDepth 100000 in
theorem fill_seed0 :
    ((Map.new 10 10).fill_random (Pcg64.seed_from_u64 0)).1 = fillMap0 := by
  decide

set_option maxRecDepth 100000 in
theorem grow_seed0_1 : fillMap0.next_cellular_automata = growMap1 := by decide

set_option maxRecDepth 100000 in
theorem grow_seed0_2 : growMap1.next_cellular_automata = growMap2 := by decide

set_option maxRecDepth 100000 in
theorem grow_seed0_3 : growMap2.next_cellular_automata = growMap3 := by decide

set_option maxRecDepth 100000 in
theorem grow_seed0_4 : growMap3.next_cellular_automata = growMap4 := by decide

set_option maxRecDepth 100000 in
theorem grow_seed0_5 : growMap4.next_cellular_automata = growMap5 := by decide

set_option maxRecDepth 100000 in
theorem clean_seed0 : growMap5.cleanup_cellular_automata = cleanMap := by decide

/-- Seed string 0 parses as the integer 0, whatever the fallback hasher. -/
theorem resolve_seed_zero (hash : String → Nat) : resolve_seed hash "0" = 0 := rfl

/-- Unrolling of the five-iteration generator loop. -/
theorem foldl_range_five {α : Type} (f : α → α) (m0 : α) :
    (List.range 5).foldl (fun m _ => f m) m0 = f (f (f (f (f m0)))) := rfl

/-- Unrolling of a five-fold function iterate. -/
theorem iterate_five {α : Type} (f : α → α) (a : α) :
    f^[5] a = f (f (f (f (f a)))) := rfl

/-- The lib.rs generator at 10 x 10 under seed string 0 produces exactly
the five-growth-pass grid. -/
theorem lib_gen_seed0 (hash : String → Nat) :
    Lib.gen_cave_seed hash 10 10 "0" = growMap5 := by
  unfold Lib.gen_cave_seed Lib.gen_cave
  rw [resolve_seed_zero, foldl_range_five Map.next_cellular_automata,
    fill_seed0, grow_seed0_1, grow_seed0_2, grow_seed0_3, grow_seed0_4,
    grow_seed0_5]

/-- The cave.rs generator at 10 x 10 under seed string 0 produces exactly
the cleaned grid. -/
theorem cave_gen_seed0 (hash : String → Nat) :
    Cave.gen_cave_seed hash 10 10 "0" = cleanMap := by
  unfold Cave.gen_cave_seed Cave.gen_cave
  dsimp only
  rw [resolve_seed_zero, foldl_range_five Map.next_cellular_automata,
    fill_seed0, grow_seed0_1, grow_seed0_2, grow_seed0_3, grow_seed0_4,
    grow_seed0_5, clean_seed0]

/-! The claims. -/

/-- Claim C1: at every in-bounds cell, the growth-pass update returns wall
when the local neighbour count is at least 5; else wall when the far
neighbour count is exactly 0; else wall when the local count is exactly 4
and the current cell is already wall; else floor. -/
theorem calculate_new_cell_rule (m : Map) (y x : Nat)
    (hy : y < m.height) (hx : x < m.width) :
    m.calculate_new_cell y x
      = if 5 ≤ m.count_neighbours y x then true
        else if m.count_far_neighbours y x = 0 then true
        else if m.count_neighbours y x = 4 ∧ m.get y x = true then true
        else false := by
  unfold Map.calculate_new_cell Map.empty_space
  dsimp only
  by_cases h5 : 5 ≤ m.count_neighbours y x
  · rw [if_pos (Or.inl h5), if_pos h5]
  · by_cases hf : m.count_far_neighbours y x = 0
    · rw [if_pos (Or.inr (by rw [if_pos hf])), if_neg h5, if_pos hf]
    · rw [if_neg (by
        rintro (h | h)
        · exact h5 h
        · rw [if_neg hf] at h
          exact Bool.false_ne_true h),
        if_neg h5, if_neg hf]

/-- Witness for C1 at the 1 x 1 empty grid and its single cell. -/
theorem calculate_new_cell_rule_witness :
    0 < (Map.new 1 1).height ∧ 0 < (Map.new 1 1).width
    ∧ (Map.new 1 1).calculate_new_cell 0 0
        = (if 5 ≤ (Map.new 1 1).count_neighbours 0 0 then true
           else if (Map.new 1 1).count_far_neighbours 0 0 = 0 then true
           else if (Map.new 1 1).count_neighbours 0 0 = 4
               ∧ (Map.new 1 1).get 0 0 = true then true
           else false) :=
  ⟨by decide, by decide,
    calculate_new_cell_rule (Map.new 1 1) 0 0 (by decide) (by decide)⟩

/-- Claim C2: the growth-and-cleanup generator equals the spec composition
new, then fill_random, then exactly five whole-grid growth passes, then
exactly one cleanup pass; and gen_cave_seed is exactly that composition at
the resolved seed. -/
theorem gen_cave_growth_cleanup_structure :
    (∀ (y x : Nat) (g : Pcg64), Cave.gen_cave y x g = gen_cave_spec y x g)
    ∧ ∀ (hash : String → Nat) (y x : Nat) (s : String),
        Cave.gen_cave_seed hash y x s
          = gen_cave_spec y x (Pcg64.seed_from_u64 (resolve_seed hash s)) := by
  constructor
  · intro y x g
    unfold Cave.gen_cave gen_cave_spec
    dsimp only
    rw [foldl_range_five Map.next_cellular_automata, iterate_five]
  · intro hash y x s
    unfold Cave.gen_cave_seed Cave.gen_cave gen_cave_spec
    dsimp only
    rw [foldl_range_five Map.next_cellular_automata, iterate_five]

/-- Claim C3: the local neighbour count is in 0..8; the far neighbour
count equals the local count plus the wall count over exactly the 16 ring
offsets with out-of-bounds counting as wall; hence it is in 0..24 and at
least the local count. -/
theorem neighbour_count_bounds (m : Map) (y x : Nat) :
    m.count_neighbours y x ≤ 8
    ∧ m.count_far_neighbours y x
        = m.count_neighbours y x + ring_wall_count m y x
    ∧ m.count_far_neighbours y x ≤ 24
    ∧ m.count_neighbours y x ≤ m.count_far_neighbours y x := by
  have h1 := count_neighbours_le_eight m y x
  have h2 := count_far_neighbours_eq_ring m y x
  have h3 := ring_wall_count_le_sixteen m y x
  exact ⟨h1, h2, by omega, by omega⟩

/-- Claim C4: get returns true at any out-of-bounds coordinate whatever
the contents, returns the stored cell at the row-major index otherwise,
and is total. -/
theorem get_total_spec (m : Map) (y x : Nat) :
    (m.height ≤ y ∨ m.width ≤ x → m.get y x = true)
    ∧ (y < m.height → x < m.width
        → m.get y x = m.map.getD (y * m.width + x) false) := by
  constructor
  · intro h
    unfold Map.get
    rw [if_pos h]
  · intro hy hx
    unfold Map.get
    rw [if_neg (by omega)]

/-- Witness for C4 on a 2 x 3 grid, out of bounds at (5,0) and in bounds
at (1,2). -/
theorem get_total_spec_witness :
    ((Map.new 2 3).height ≤ 5 ∨ (Map.new 2 3).width ≤ 0)
    ∧ (Map.new 2 3).get 5 0 = true
    ∧ (Map.new 2 3).get 1 2
        = (Map.new 2 3).map.getD (1 * (Map.new 2 3).width + 2) false :=
  ⟨by decide, (get_total_spec (Map.new 2 3) 5 0).1 (by decide),
    (get_total_spec (Map.new 2 3) 1 2).2 (by decide) (by decide)⟩

set_option maxRecDepth 40000 in
/-- Counterexample to claim C5 as stated: on the all-floor 3 x 3 grid the
cleanup pass is not idempotent (one pass walls the four corners only, a
second pass also walls the four edge cells). -/
theorem cleanup_not_idempotent :
    ¬(((Map.new 3 3).cleanup_cellular_automata).cleanup_cellular_automata
        = (Map.new 3 3).cleanup_cellular_automata) := by decide

/-- Claim C5 as amended: on grids the cleanup pass leaves unchanged
(already-cleaned grids), applying cleanup twice equals applying it once. -/
theorem cleanup_idempotent_on_cleaned (m : Map)
    (h : m.cleanup_cellular_automata = m) :
    m.cleanup_cellular_automata.cleanup_cellular_automata
      = m.cleanup_cellular_automata := by rw [h, h]

set_option maxRecDepth 40000 in
/-- Witness for the amended C5 at the all-wall 3 x 3 grid, which cleanup
fixes. -/
theorem cleanup_idempotent_on_cleaned_witness :
    allWall3.cleanup_cellular_automata = allWall3
    ∧ allWall3.cleanup_cellular_automata.cleanup_cellular_automata
        = allWall3.cleanup_cellular_automata :=
  ⟨by decide, cleanup_idempotent_on_cleaned allWall3 (by decide)⟩

/-- Claim C6: the growth-only generator of lib.rs and the growth-plus-
cleanup generator of cave.rs disagree at seed string 0 and size 10 x 10
(they differ at cell (4,7)), whatever the fallback hasher. -/
theorem generator_variants_differ (hash : String → Nat) :
    Lib.gen_cave_seed hash 10 10 "0" ≠ Cave.gen_cave_seed hash 10 10 "0" := by
  rw [lib_gen_seed0 hash, cave_gen_seed0 hash]
  decide

/-- Claim C7: seeded generation is deterministic: the resolved seed and
the generated grid are functions of the inputs alone, and at seed string 0
and 10 x 10 the result is one fixed bit-identical grid, independent even
of the fallback hasher. -/
theorem gen_cave_seed_deterministic :
    (∀ (hash : String → Nat) (s : String),
      resolve_seed hash s = resolve_seed hash s)
    ∧ (∀ (hash : String → Nat) (h w : Nat) (s : String),
        Cave.gen_cave_seed hash h w s = Cave.gen_cave_seed hash h w s)
    ∧ ∀ hash : String → Nat, Cave.gen_cave_seed hash 10 10 "0" = cleanMap :=
  ⟨fun _ _ => rfl, fun _ _ _ _ => rfl, fun hash => cave_gen_seed0 hash⟩

/-- Claim C8: writing an in-bounds cell and reading it back returns the
written value; an out-of-bounds write is a no-op leaving every in-bounds
cell unchanged.  The hypothesis is the Rust Vec invariant on the backing
sequence (spec section 3). -/
theorem set_then_get_spec (m : Map)
    (hwf : m.map.length = m.width * m.height) (y x : Nat) (v : Bool) :
    (y < m.height → x < m.width → (m.set y x v).get y x = v)
    ∧ (m.height ≤ y ∨ m.width ≤ x →
        ∀ y' x', y' < m.height → x' < m.width →
          (m.set y x v).get y' x' = m.get y' x') := by
  constructor
  · intro hy hx
    rw [Map.get_set m hwf y x v y x, if_pos ⟨rfl, rfl, hy, hx⟩]
  · intro hoob y' x' _ _
    rw [Map.set_of_not_lt m y x v (by omega)]

/-- Witness for C8 on a 2 x 2 grid: in-bounds write at (1,0), out-of-
bounds write at (7,7). -/
theorem set_then_get_spec_witness :
    (Map.new 2 2).map.length = (Map.new 2 2).width * (Map.new 2 2).height
    ∧ ((Map.new 2 2).set 1 0 true).get 1 0 = true
    ∧ ((Map.new 2 2).set 7 7 true).get 0 1 = (Map.new 2 2).get 0 1 :=
  ⟨by decide,
    (set_then_get_spec (Map.new 2 2) (by decide) 1 0 true).1
      (by decide) (by decide),
    (set_then_get_spec (Map.new 2 2) (by decide) 7 7 true).2
      (by decide) 0 1 (by decide) (by decide)⟩

/-- Claim C9: a fresh grid has backing storage of length exactly
height * width and every in-bounds cell reads floor; zero dimensions are
valid. -/
theorem new_all_floor_spec (h w : Nat) :
    (Map.new h w).map.length = h * w
    ∧ ∀ y, y < h → ∀ x, x < w → (Map.new h w).get y x = false := by
  constructor
  · rw [Map.new_length]
    exact Nat.mul_comm w h
  · intro y hy x hx
    unfold Map.get
    rw [if_neg (by
      rw [Map.new_height, Map.new_width]
      omega)]
    rw [show (Map.new h w).map = List.replicate (w * h) false from rfl,
      List.getD_eq_getElem?_getD, List.getElem?_replicate]
    split <;> rfl

/-- Witness for C9 at height 2, width 3, cell (1,2); the length conjunct
is itself closed (h = 2, w = 3 concrete). -/
theorem new_all_floor_spec_witness :
    (Map.new 2 3).map.length = 2 * 3 ∧ (Map.new 2 3).get 1 2 = false :=
  ⟨(new_all_floor_spec 2 3).1,
    (new_all_floor_spec 2 3).2 1 (by decide) 2 (by decide)⟩

/-- Claim C10: a grid whose in-bounds cells are all wall is a fixed point
of both the growth pass and the cleanup pass (every cell then has local
neighbour count 8, since out-of-bounds neighbours also count as wall). -/
theorem all_wall_fixed_point (m : Map)
    (hall : ∀ y, y < m.height → ∀ x, x < m.width → m.get y x = true) :
    ∀ y, y < m.height → ∀ x, x < m.width →
      m.next_cellular_automata.get y x = true
      ∧ m.cleanup_cellular_automata.get y x = true := by
  have hget : ∀ y x, m.get y x = true := by
    intro y x
    by_cases h : y < m.height ∧ x < m.width
    · exact hall y h.1 x h.2
    · exact Map.get_oob m y x h
  have hcount : ∀ y x, m.count_neighbours y x = 8 := by
    intro y x
    simp [Map.count_neighbours, hget]
  intro y hy x hx
  constructor
  · rw [Map.next_cellular_automata_get, if_pos ⟨hy, hx⟩]
    simp [Map.calculate_new_cell, hcount]
  · rw [Map.cleanup_cellular_automata_get, if_pos ⟨hy, hx⟩]
    simp [Map.cleanup_cell, hcount]

set_option maxRecDepth 40000 in
/-- Witness for C10 at the all-wall 2 x 2 grid and its cell (0,0). -/
theorem all_wall_fixed_point_witness :
    (∀ y, y < allWall2.height → ∀ x, x < allWall2.width
      → allWall2.get y x = true)
    ∧ (allWall2.next_cellular_automata.get 0 0 = true
        ∧ allWall2.cleanup_cellular_automata.get 0 0 = true) :=
  ⟨by decide,
    all_wall_fixed_point allWall2 (by decide) 0 (by decide) 0 (by decide)⟩
